import Mathlib

/-!
Shallow embedding of the orbital propagation core of `meteor-madness`
(`backend/services/simulation_service.py`, `backend/models/orbital_elements.py`;
`simultion_trajectory/orbital_simulation.py` duplicates the same solver and
transform verbatim).  Python floats are modelled by real numbers; `math.atan2`
is modelled by `Complex.arg` (same quadrant conventions, range `(-π, π]`).
-/

open Real

noncomputable section

namespace MeteorMadness

open Classical

/-- Earth radius in km, `SimulationService.earth_radius` and the local
constant in `OrbitalElements.get_orbital_info`. -/
def earth_radius : ℝ := 6371

/-- `math.radians`: degrees to radians. -/
def radians (x : ℝ) : ℝ := x * π / 180

/-- `math.atan2 y x`, modelled as the argument of the complex number `x + y·i`
(range `(-π, π]`, `atan2 0 0 = 0`, matching the C library convention for
non-signed-zero inputs). -/
def atan2 (y x : ℝ) : ℝ := Complex.arg ⟨x, y⟩

/-- One Newton-Raphson update from `solve_kepler_equation`:
`E_new = E - (E - e*sin(E) - M) / (1 - e*cos(E))`. -/
def keplerStep (M e E : ℝ) : ℝ :=
  E - (E - e * Real.sin E - M) / (1 - e * Real.cos E)

/-- The convergence tolerance default of `solve_kepler_equation`. -/
def kepler_tolerance : ℝ := 1e-8

/-- The `for _ in range(n)` loop body of `solve_kepler_equation`: with `n`
iterations left and current iterate `E`, compute `E_new`; return it if
`|E_new - E| < tol`, otherwise continue; when the loop ends return `E`. -/
def keplerLoop (M e tol : ℝ) : ℕ → ℝ → ℝ
  | 0, E => E
  | n + 1, E =>
      if |keplerStep M e E - E| < tol then keplerStep M e E
      else keplerLoop M e tol n (keplerStep M e E)

/-- `OrbitalSimulation.solve_kepler_equation(M, e)` at the default tolerance
`1e-8`: Newton-Raphson from `E = M`, at most 50 iterations. -/
def solve_kepler_equation (M e : ℝ) : ℝ :=
  keplerLoop M e kepler_tolerance 50 M

/-- The sequence of Newton-Raphson iterates `E_0 = M`,
`E_{k+1} = E_k - (E_k - e·sin E_k - M)/(1 - e·cos E_k)` that the claim
describes; used to characterize what `solve_kepler_equation` returns. -/
def newtonSeq (M e : ℝ) : ℕ → ℝ
  | 0 => M
  | k + 1 => keplerStep M e (newtonSeq M e k)

/-- The claim's convergence test for step `k`: `|E_{k+1} - E_k| < 1e-8`. -/
def newtonConverged (M e : ℝ) (k : ℕ) : Prop :=
  |newtonSeq M e (k + 1) - newtonSeq M e k| < kepler_tolerance

/-- `OrbitalSimulation.mean_to_true_anomaly(M, e)`:
`ν = 2·atan2(√(1+e)·sin(E/2), √(1-e)·cos(E/2))` with `E` from the solver. -/
def mean_to_true_anomaly (M e : ℝ) : ℝ :=
  2 * atan2 (Real.sqrt (1 + e) * Real.sin (solve_kepler_equation M e / 2))
            (Real.sqrt (1 - e) * Real.cos (solve_kepler_equation M e / 2))

/-- `OrbitalElements.__init__`: angles are received in degrees and stored in
radians; `n = sqrt(mu / a^3)` and `T = 2π/n` are computed at construction. -/
structure OrbitalElements where
  a : ℝ
  e : ℝ
  i : ℝ
  omega : ℝ
  Omega : ℝ
  M0 : ℝ
  mu : ℝ
  n : ℝ
  T : ℝ

/-- Earth's standard gravitational parameter, the default `mu` (km³/s²). -/
def mu_earth : ℝ := 3.986004418e5

/-- The `OrbitalElements` constructor: inputs in degrees, stored in radians,
derived mean motion and period. -/
def OrbitalElements.make (a e i omega Omega M0 mu : ℝ) : OrbitalElements :=
  { a := a, e := e, i := radians i, omega := radians omega,
    Omega := radians Omega, M0 := radians M0, mu := mu,
    n := Real.sqrt (mu / a ^ 3),
    T := 2 * π / Real.sqrt (mu / a ^ 3) }

/-- `OrbitalSimulation.orbital_to_cartesian(elements, t)`: mean anomaly
`M = M0 + n·t`, true anomaly via the solver, orbital radius
`r = a(1-e²)/(1+e·cos ν)`, perifocal position `(r·cos ν, r·sin ν, 0)`, then
the three successive 2D rotations by `ω`, `i`, `Ω`. -/
def orbital_to_cartesian (el : OrbitalElements) (t : ℝ) : ℝ × ℝ × ℝ :=
  let M := el.M0 + el.n * t
  let nu := mean_to_true_anomaly M el.e
  let r := el.a * (1 - el.e ^ 2) / (1 + el.e * Real.cos nu)
  let x_orbital := r * Real.cos nu
  let y_orbital := r * Real.sin nu
  let z_orbital : ℝ := 0
  let x1 := x_orbital * Real.cos el.omega - y_orbital * Real.sin el.omega
  let y1 := x_orbital * Real.sin el.omega + y_orbital * Real.cos el.omega
  let z1 := z_orbital
  let x2 := x1
  let y2 := y1 * Real.cos el.i - z1 * Real.sin el.i
  let z2 := y1 * Real.sin el.i + z1 * Real.cos el.i
  let x := x2 * Real.cos el.Omega - y2 * Real.sin el.Omega
  let y := x2 * Real.sin el.Omega + y2 * Real.cos el.Omega
  let z := z2
  (x, y, z)

/-- `np.arange(0, stop, step)` for `step ≠ 0`: the values `k·step` for
`k = 0, …, ⌈stop/step⌉-1` (empty when `stop/step ≤ 0`). -/
def arange (stop step : ℝ) : List ℝ :=
  (List.range ⌈stop / step⌉₊).map (fun k : ℕ => (k : ℝ) * step)

/-- `OrbitalSimulation.simulate(duration, time_step)`: the time grid
`np.arange(0, duration, time_step)` and the position at each grid time.
`np.arange` raises `ZeroDivisionError` when the step is zero; any other
step produces the (possibly empty) grid without validation. -/
def simulate (el : OrbitalElements) (duration time_step : ℝ) :
    Except String (List ℝ × List (ℝ × ℝ × ℝ)) :=
  if time_step = 0 then Except.error "ZeroDivisionError: division by zero"
  else
    let times := arange duration time_step
    Except.ok (times, times.map (orbital_to_cartesian el))

/-- Euclidean norm of a 3D point, `np.sqrt(np.sum(p**2))`. -/
def norm3 (p : ℝ × ℝ × ℝ) : ℝ :=
  Real.sqrt (p.1 ^ 2 + p.2.1 ^ 2 + p.2.2 ^ 2)

/-- Componentwise difference of 3D points, `np.diff` of consecutive rows. -/
def sub3 (p q : ℝ × ℝ × ℝ) : ℝ × ℝ × ℝ :=
  (p.1 - q.1, p.2.1 - q.2.1, p.2.2 - q.2.2)

/-- The `velocities` array of `_process_simulation_results`: when there are
at least two positions, `|position[k+1] - position[k]| / dt` with
`dt = times[1] - times[0]`; otherwise the one-element list `[0]`. -/
def velocitySeries (times : List ℝ) (positions : List (ℝ × ℝ × ℝ)) : List ℝ :=
  if 1 < positions.length then
    let dt := times.getD 1 0 - times.getD 0 0
    (positions.zip positions.tail).map (fun pq => norm3 (sub3 pq.2 pq.1) / dt)
  else [0]

/-- `np.where(distances <= r)[0][0]` when it exists: the first index whose
distance is at most the reference radius. -/
def firstImpactIndex (distances : List ℝ) : Option ℕ :=
  if h : ∃ k, k < distances.length ∧ distances.getD k 0 ≤ earth_radius then
    some (Nat.find h)
  else none

/-- `np.argmin`: index of the first occurrence of the minimum (0 on an empty
list, where NumPy would raise instead; the analyzer is only applied to
non-empty trajectories). -/
def argminIdx (l : List ℝ) : ℕ :=
  if h : ∃ k, k < l.length ∧ ∀ j, j < l.length → l.getD k 0 ≤ l.getD j 0 then
    Nat.find h
  else 0

/-- `np.argmax`: index of the first occurrence of the maximum. -/
def argmaxIdx (l : List ℝ) : ℕ :=
  if h : ∃ k, k < l.length ∧ ∀ j, j < l.length → l.getD j 0 ≤ l.getD k 0 then
    Nat.find h
  else 0

/-- `np.min` of a non-empty list (0 on empty, unused). -/
def listMin : List ℝ → ℝ
  | [] => 0
  | x :: xs => xs.foldl min x

/-- `np.max` of a non-empty list (0 on empty, unused). -/
def listMax : List ℝ → ℝ
  | [] => 0
  | x :: xs => xs.foldl max x

/-- The `periapsis` / `apoapsis` records of the analysis dictionary. -/
structure ExtremumInfo where
  time : ℝ
  position : ℝ × ℝ × ℝ
  distance : ℝ
  altitude : ℝ

/-- The `impact` record of the analysis dictionary. -/
structure ImpactInfo where
  will_impact : Bool
  impact_time : Option ℝ
  impact_position : Option (ℝ × ℝ × ℝ)
  impact_index : Option ℕ

/-- The `trajectory` part of the processed results. -/
structure TrajectoryData where
  times : List ℝ
  positions : List (ℝ × ℝ × ℝ)
  distances : List ℝ
  velocities : List ℝ
  altitudes : List ℝ

/-- The `analysis` part of the processed results. -/
structure AnalysisInfo where
  min_altitude : ℝ
  max_altitude : ℝ
  min_distance : ℝ
  max_distance : ℝ
  avg_velocity : ℝ
  periapsis : ExtremumInfo
  apoapsis : ExtremumInfo
  impact : ImpactInfo

/-- `OrbitalElements.get_orbital_info()`. -/
structure OrbitalInfo where
  semi_major_axis : ℝ
  eccentricity : ℝ
  perigee_altitude : ℝ
  apogee_altitude : ℝ
  will_impact_earth : Prop
  impact_depth : ℝ

/-- `OrbitalElements.get_orbital_info`: perigee/apogee altitudes from the
elements alone; `will_impact_earth` is `perigee_altitude < 0` (strict). -/
def getOrbitalInfo (el : OrbitalElements) : OrbitalInfo :=
  let perigee_altitude := el.a * (1 - el.e) - earth_radius
  let apogee_altitude := el.a * (1 + el.e) - earth_radius
  { semi_major_axis := el.a
    eccentricity := el.e
    perigee_altitude := perigee_altitude
    apogee_altitude := apogee_altitude
    will_impact_earth := perigee_altitude < 0
    impact_depth := if perigee_altitude < 0 then |perigee_altitude| else 0 }

/-- The full processed-results record. -/
structure ProcessedResults where
  trajectory : TrajectoryData
  analysis : AnalysisInfo
  orbital_info : OrbitalInfo

/-- `SimulationService._process_simulation_results(raw_results, elements)`:
distances, finite-difference velocities, altitudes, first-impact detection,
argmin/argmax extrema.  The reported `velocities` list and `avg_velocity`
are gated on `len(velocities) > 1` exactly as in the source. -/
def process_simulation_results (times : List ℝ) (positions : List (ℝ × ℝ × ℝ))
    (el : OrbitalElements) : ProcessedResults :=
  let distances := positions.map norm3
  let velocities := velocitySeries times positions
  let altitudes := distances.map (fun d => d - earth_radius)
  let first_impact_index := firstImpactIndex distances
  let min_distance_idx := argminIdx distances
  let max_distance_idx := argmaxIdx distances
  { trajectory :=
      { times := times
        positions := positions
        distances := distances
        velocities := if 1 < velocities.length then velocities else []
        altitudes := altitudes }
    analysis :=
      { min_altitude := listMin altitudes
        max_altitude := listMax altitudes
        min_distance := listMin distances
        max_distance := listMax distances
        avg_velocity :=
          if 1 < velocities.length then velocities.sum / velocities.length
          else 0
        periapsis :=
          { time := times.getD min_distance_idx 0
            position := positions.getD min_distance_idx (0, 0, 0)
            distance := distances.getD min_distance_idx 0
            altitude := altitudes.getD min_distance_idx 0 }
        apoapsis :=
          { time := times.getD max_distance_idx 0
            position := positions.getD max_distance_idx (0, 0, 0)
            distance := distances.getD max_distance_idx 0
            altitude := altitudes.getD max_distance_idx 0 }
        impact :=
          { will_impact := first_impact_index.isSome
            impact_time := first_impact_index.map (fun i => times.getD i 0)
            impact_position :=
              first_impact_index.map (fun i => positions.getD i (0, 0, 0))
            impact_index := first_impact_index } }
    orbital_info := getOrbitalInfo el }

/-- `SimulationService.run_simulation`: run `simulate`, then process; any
exception is caught and returned as a failure string.  On the empty
trajectory a negative step produces, the first failing operation in
`_process_simulation_results` is `np.sum(positions**2, axis=1)`:
`np.array([])` is one-dimensional with shape `(0,)`, so NumPy raises its
axis-out-of-bounds error there, before `np.argmin` is ever reached. -/
def run_simulation (el : OrbitalElements) (duration timestep : ℝ) :
    Except String ProcessedResults :=
  match simulate el duration timestep with
  | Except.error msg => Except.error msg
  | Except.ok (times, positions) =>
      if positions.length = 0 then
        Except.error "axis 1 is out of bounds for array of dimension 1"
      else Except.ok (process_simulation_results times positions el)

/-! ### Helper lemmas about the Newton iteration -/

lemma keplerStep_newtonSeq (M e : ℝ) (k : ℕ) :
    keplerStep M e (newtonSeq M e k) = newtonSeq M e (k + 1) := rfl

lemma keplerLoop_no_conv (M e : ℝ) :
    ∀ n j : ℕ, (∀ i, j ≤ i → i < j + n → ¬ newtonConverged M e i) →
      keplerLoop M e kepler_tolerance n (newtonSeq M e j) = newtonSeq M e (j + n) := by
  intro n
  induction n with
  | zero => intro j _; simp [keplerLoop]
  | succ n ih =>
      intro j h
      have hj : ¬ newtonConverged M e j := h j le_rfl (by omega)
      have hcond :
          ¬ |keplerStep M e (newtonSeq M e j) - newtonSeq M e j| < kepler_tolerance := by
        simpa [newtonConverged, keplerStep_newtonSeq] using hj
      rw [keplerLoop, if_neg hcond, keplerStep_newtonSeq,
        ih (j + 1) (fun i hi1 hi2 => h i (by omega) (by omega))]
      congr 1
      omega

lemma keplerLoop_conv (M e : ℝ) :
    ∀ n j k : ℕ, j ≤ k → k < j + n → newtonConverged M e k →
      (∀ i, j ≤ i → i < k → ¬ newtonConverged M e i) →
      keplerLoop M e kepler_tolerance n (newtonSeq M e j) = newtonSeq M e (k + 1) := by
  intro n
  induction n with
  | zero => intro j k hjk hlt _ _; omega
  | succ n ih =>
      intro j k hjk hlt hconv hmin
      by_cases hjk2 : j = k
      · subst hjk2
        have hcond :
            |keplerStep M e (newtonSeq M e j) - newtonSeq M e j| < kepler_tolerance := by
          simpa [newtonConverged, keplerStep_newtonSeq] using hconv
        rw [keplerLoop, if_pos hcond, keplerStep_newtonSeq]
      · have hj : ¬ newtonConverged M e j := hmin j le_rfl (by omega)
        have hcond :
            ¬ |keplerStep M e (newtonSeq M e j) - newtonSeq M e j| < kepler_tolerance := by
          simpa [newtonConverged, keplerStep_newtonSeq] using hj
        rw [keplerLoop, if_neg hcond, keplerStep_newtonSeq]
        exact ih (j + 1) k (by omega) (by omega) hconv
          (fun i hi1 hi2 => hmin i (by omega) hi2)

/-! ### Claim theorems -/

/-- C1.  `solve_kepler_equation(M, e)` is Newton-Raphson with initial guess
`E₀ = M` and update `E_{k+1} = E_k - (E_k - e·sin E_k - M)/(1 - e·cos E_k)`;
it returns the first iterate `E_{k+1}` with `|E_{k+1} - E_k| < 1e-8`, and when
no iterate within the 50-iteration cap satisfies this it returns the last
iterate `E₅₀` rather than failing. -/
theorem c1_solver_returns_first_converged_iterate (M e : ℝ) :
    newtonSeq M e 0 = M ∧
    (∀ k, newtonSeq M e (k + 1) =
      newtonSeq M e k -
        (newtonSeq M e k - e * Real.sin (newtonSeq M e k) - M) /
          (1 - e * Real.cos (newtonSeq M e k))) ∧
    (∀ k, k < 50 → newtonConverged M e k →
      (∀ j, j < k → ¬ newtonConverged M e j) →
      solve_kepler_equation M e = newtonSeq M e (k + 1)) ∧
    ((∀ k, k < 50 → ¬ newtonConverged M e k) →
      solve_kepler_equation M e = newtonSeq M e 50) := by
  refine ⟨rfl, fun k => rfl, fun k hk hconv hmin => ?_, fun hnone => ?_⟩
  · have := keplerLoop_conv M e 50 0 k (by omega) (by omega) hconv
      (fun i _ hi => hmin i hi)
    simpa [solve_kepler_equation, newtonSeq] using this
  · have := keplerLoop_no_conv M e 50 0 (fun i _ hi => hnone i (by omega))
    simpa [solve_kepler_equation, newtonSeq] using this

/-- Witness for C1 at `M = 0`, `e = 0`: the first iterate already converges
(`E₁ = 0`, `|E₁ - E₀| = 0 < 1e-8`), and the solver returns it. -/
theorem c1_witness :
    (0 : ℕ) < 50 ∧ newtonConverged 0 0 0 ∧
      solve_kepler_equation 0 0 = newtonSeq 0 0 (0 + 1) := by
  have hconv : newtonConverged 0 0 0 := by
    simp [newtonConverged, newtonSeq, keplerStep, kepler_tolerance]
    norm_num
  exact ⟨by norm_num, hconv,
    (c1_solver_returns_first_converged_iterate 0 0).2.2.1 0 (by norm_num) hconv
      (fun j hj => absurd hj (by omega))⟩

/-- C8.  For `0 ≤ e < 1` every Newton iterate's denominator `1 - e·cos(E_k)`
is bounded below by `1 - e > 0`, hence never zero: the solver never divides
by zero, and (being a bounded loop) always returns after at most 50 steps. -/
theorem c8_newton_denominator_positive (M e : ℝ) (h0 : 0 ≤ e) (h1 : e < 1) :
    ∀ k : ℕ, 1 - e ≤ 1 - e * Real.cos (newtonSeq M e k) ∧
      0 < 1 - e * Real.cos (newtonSeq M e k) ∧
      1 - e * Real.cos (newtonSeq M e k) ≠ 0 := by
  intro k
  have hcos : e * Real.cos (newtonSeq M e k) ≤ e * 1 :=
    mul_le_mul_of_nonneg_left (Real.cos_le_one _) h0
  have hle : 1 - e ≤ 1 - e * Real.cos (newtonSeq M e k) := by nlinarith
  have hpos : 0 < 1 - e * Real.cos (newtonSeq M e k) := by nlinarith
  exact ⟨hle, hpos, ne_of_gt hpos⟩

/-- Witness for C8 at `M = 1`, `e = 1/2`, `k = 7`. -/
theorem c8_witness :
    (0 : ℝ) ≤ 1 / 2 ∧ (1 / 2 : ℝ) < 1 ∧
      0 < 1 - (1 / 2 : ℝ) * Real.cos (newtonSeq 1 (1 / 2) 7) :=
  ⟨by norm_num, by norm_num,
    (c8_newton_denominator_positive 1 (1 / 2) (by norm_num) (by norm_num) 7).2.1⟩

/-! ### Helper lemmas for the circular case and the arctangent model -/

lemma keplerStep_self_zero_ecc (M : ℝ) : keplerStep M 0 M = M := by
  simp [keplerStep]

lemma solve_kepler_zero_ecc (M : ℝ) : solve_kepler_equation M 0 = M := by
  have h50 : (50 : ℕ) = 49 + 1 := rfl
  rw [solve_kepler_equation, h50, keplerLoop, keplerStep_self_zero_ecc, if_pos]
  rw [sub_self, abs_zero, kepler_tolerance]
  norm_num

lemma newtonConverged_zero_ecc (M : ℝ) : newtonConverged M 0 0 := by
  have h : newtonSeq M 0 1 = M := keplerStep_self_zero_ecc M
  rw [newtonConverged, h]
  show |M - M| < kepler_tolerance
  rw [sub_self, abs_zero, kepler_tolerance]
  norm_num

lemma atan2_sin_cos {θ : ℝ} (h1 : -π < θ) (h2 : θ ≤ π) :
    atan2 (Real.sin θ) (Real.cos θ) = θ := by
  have hmk : (⟨Real.cos θ, Real.sin θ⟩ : ℂ) =
      (Real.cos θ : ℂ) + (Real.sin θ : ℂ) * Complex.I :=
    Complex.mk_eq_add_mul_I _ _
  rw [atan2, hmk, Complex.ofReal_cos, Complex.ofReal_sin]
  exact Complex.arg_cos_add_sin_mul_I ⟨h1, h2⟩

/-- C7 (amended).  For `e = 0` the solver converges in its first iteration
with `E = M`, for every real `M`; and `mean_to_true_anomaly(M, 0) = M` for
`M ∈ (-2π, 2π]` (for `M` outside that range the returned true anomaly is the
representative of `M` in it, not `M` itself). -/
theorem c7_circular_anomaly (M : ℝ) :
    newtonConverged M 0 0 ∧ solve_kepler_equation M 0 = M ∧
      (-(2 * π) < M → M ≤ 2 * π → mean_to_true_anomaly M 0 = M) := by
  refine ⟨newtonConverged_zero_ecc M, solve_kepler_zero_ecc M, fun hm1 hm2 => ?_⟩
  rw [mean_to_true_anomaly, solve_kepler_zero_ecc]
  simp only [add_zero, sub_zero, Real.sqrt_one, one_mul]
  rw [atan2_sin_cos (by linarith) (by linarith)]
  ring

/-- Witness for C7 at `M = 1`. -/
theorem c7_witness :
    -(2 * π) < (1 : ℝ) ∧ (1 : ℝ) ≤ 2 * π ∧ mean_to_true_anomaly 1 0 = 1 :=
  ⟨by nlinarith [Real.pi_gt_three], by nlinarith [Real.pi_gt_three],
    (c7_circular_anomaly 1).2.2 (by nlinarith [Real.pi_gt_three])
      (by nlinarith [Real.pi_gt_three])⟩

/-- C7 counterexample.  At `M = 3π`, `e = 0` the code returns the true
anomaly `-π`, not `3π`: `2·atan2(sin(M/2), cos(M/2))` reduces the angle to
`(-2π, 2π]`, so the returned value differs from the mean anomaly `M`. -/
theorem c7_counterexample :
    mean_to_true_anomaly (3 * π) 0 = -π ∧ mean_to_true_anomaly (3 * π) 0 ≠ 3 * π := by
  have h32 : 3 * π / 2 = π + π / 2 := by ring
  have hcos : Real.cos (3 * π / 2) = 0 := by
    rw [h32, Real.cos_add]; simp
  have hsin : Real.sin (3 * π / 2) = -1 := by
    rw [h32, Real.sin_add]; simp
  have hval : mean_to_true_anomaly (3 * π) 0 = -π := by
    rw [mean_to_true_anomaly, solve_kepler_zero_ecc]
    simp only [add_zero, sub_zero, Real.sqrt_one, one_mul, hcos, hsin]
    have hmk : (⟨(0 : ℝ), (-1 : ℝ)⟩ : ℂ) = -Complex.I := by
      apply Complex.ext <;> simp
    rw [atan2, hmk, Complex.arg_neg_I]
    ring
  refine ⟨hval, ?_⟩
  rw [hval]
  intro h
  nlinarith [Real.pi_pos]

/-! ### The propagator performs no timestep validation (C2) -/

lemma arange_neg_step_empty {d s : ℝ} (hd : 0 ≤ d) (hs : s < 0) :
    arange d s = [] := by
  have hds : d / s ≤ 0 := div_nonpos_iff.mpr (Or.inl ⟨hd, hs.le⟩)
  rw [arange, Nat.ceil_eq_zero.mpr hds]
  rfl

/-- C2 counterexample.  At `timestep = -60` (with the spec's own example
elements and a 7200 s duration) the propagator does not fail at all: it
returns an empty trajectory successfully, so no `InvalidTimestep` (nor any
other error) is raised by `simulate` for this non-positive step. -/
theorem c2_counterexample :
    simulate (OrbitalElements.make 7000 0.2 28.5 0 0 0 mu_earth) 7200 (-60) =
      Except.ok ([], []) ∧
    ∀ msg : String,
      simulate (OrbitalElements.make 7000 0.2 28.5 0 0 0 mu_earth) 7200 (-60) ≠
        Except.error msg := by
  have hempty : arange 7200 (-60) = [] :=
    arange_neg_step_empty (by norm_num) (by norm_num)
  constructor
  · rw [simulate, if_neg (by norm_num), hempty]
    rfl
  · intro msg
    rw [simulate, if_neg (by norm_num), hempty]
    simp

/-- C2 (amended).  The code performs no timestep validation and has no
`InvalidTimestep` error anywhere.  For a negative timestep the propagator
succeeds with an empty time grid (zero trajectory samples) and the overall
run then fails inside the analysis at `np.sum(positions**2, axis=1)` — the
empty position array is one-dimensional, so NumPy raises its
axis-out-of-bounds error — reported as a generic failure string; for a zero
timestep `np.arange` raises `ZeroDivisionError`. -/
theorem c2_no_timestep_validation (el : OrbitalElements) (duration ts : ℝ)
    (hd : 0 ≤ duration) (hts : ts < 0) :
    simulate el duration ts = Except.ok ([], []) ∧
    run_simulation el duration ts =
      Except.error "axis 1 is out of bounds for array of dimension 1" ∧
    simulate el duration 0 = Except.error "ZeroDivisionError: division by zero" := by
  have hempty : arange duration ts = [] := arange_neg_step_empty hd hts
  have hsim : simulate el duration ts = Except.ok ([], []) := by
    rw [simulate, if_neg (ne_of_lt hts), hempty]
    rfl
  refine ⟨hsim, ?_, by rw [simulate, if_pos rfl]⟩
  rw [run_simulation, hsim]
  rfl

/-- Witness for C2's amended theorem at `duration = 7200`, `ts = -60`. -/
theorem c2_witness :
    (0 : ℝ) ≤ 7200 ∧ (-60 : ℝ) < 0 ∧
      run_simulation (OrbitalElements.make 7000 0.2 28.5 0 0 0 mu_earth)
        7200 (-60) =
        Except.error "axis 1 is out of bounds for array of dimension 1" :=
  ⟨by norm_num, by norm_num,
    (c2_no_timestep_validation (OrbitalElements.make 7000 0.2 28.5 0 0 0 mu_earth)
      7200 (-60) (by norm_num) (by norm_num)).2.1⟩

/-! ### Helper lemmas for the trajectory analyzer -/

lemma getD_map_lt {α β : Type} (f : α → β) (l : List α) {k : ℕ}
    (hk : k < l.length) (d : α) (d' : β) :
    (l.map f).getD k d' = f (l.getD k d) := by
  rw [List.getD_eq_getElem _ _ (by simpa using hk), List.getD_eq_getElem _ _ hk,
    List.getElem_map]

lemma exists_list_argmin (l : List ℝ) (h : l ≠ []) :
    ∃ k, k < l.length ∧ ∀ j, j < l.length → l.getD k 0 ≤ l.getD j 0 := by
  induction l with
  | nil => exact absurd rfl h
  | cons x xs ih =>
      rcases eq_or_ne xs [] with hxs | hxs
      · subst hxs
        refine ⟨0, by simp, fun j hj => ?_⟩
        obtain rfl : j = 0 := Nat.lt_one_iff.mp (by simpa using hj)
        simp
      · obtain ⟨k, hk, hmin⟩ := ih hxs
        by_cases hx : x ≤ xs.getD k 0
        · refine ⟨0, by simp, fun j hj => ?_⟩
          cases j with
          | zero => simp
          | succ j =>
              rw [List.getD_cons_zero, List.getD_cons_succ]
              exact le_trans hx (hmin j (by simpa using hj))
        · refine ⟨k + 1, by simpa using hk, fun j hj => ?_⟩
          cases j with
          | zero =>
              rw [List.getD_cons_succ, List.getD_cons_zero]
              exact le_of_lt (lt_of_not_le hx)
          | succ j =>
              rw [List.getD_cons_succ, List.getD_cons_succ]
              exact hmin j (by simpa using hj)

lemma exists_list_argmax (l : List ℝ) (h : l ≠ []) :
    ∃ k, k < l.length ∧ ∀ j, j < l.length → l.getD j 0 ≤ l.getD k 0 := by
  induction l with
  | nil => exact absurd rfl h
  | cons x xs ih =>
      rcases eq_or_ne xs [] with hxs | hxs
      · subst hxs
        refine ⟨0, by simp, fun j hj => ?_⟩
        obtain rfl : j = 0 := Nat.lt_one_iff.mp (by simpa using hj)
        simp
      · obtain ⟨k, hk, hmax⟩ := ih hxs
        by_cases hx : xs.getD k 0 ≤ x
        · refine ⟨0, by simp, fun j hj => ?_⟩
          cases j with
          | zero => simp
          | succ j =>
              rw [List.getD_cons_zero, List.getD_cons_succ]
              exact le_trans (hmax j (by simpa using hj)) hx
        · refine ⟨k + 1, by simpa using hk, fun j hj => ?_⟩
          cases j with
          | zero =>
              rw [List.getD_cons_succ, List.getD_cons_zero]
              exact le_of_lt (lt_of_not_le hx)
          | succ j =>
              rw [List.getD_cons_succ, List.getD_cons_succ]
              exact hmax j (by simpa using hj)

lemma argminIdx_spec (l : List ℝ) (h : l ≠ []) :
    argminIdx l < l.length ∧
      ∀ j, j < l.length → l.getD (argminIdx l) 0 ≤ l.getD j 0 := by
  have hex := exists_list_argmin l h
  rw [argminIdx, dif_pos hex]
  exact Nat.find_spec hex

lemma argmaxIdx_spec (l : List ℝ) (h : l ≠ []) :
    argmaxIdx l < l.length ∧
      ∀ j, j < l.length → l.getD j 0 ≤ l.getD (argmaxIdx l) 0 := by
  have hex := exists_list_argmax l h
  rw [argmaxIdx, dif_pos hex]
  exact Nat.find_spec hex

lemma firstImpactIndex_none_iff (distances : List ℝ) :
    firstImpactIndex distances = none ↔
      ¬ ∃ k, k < distances.length ∧ distances.getD k 0 ≤ earth_radius := by
  rw [firstImpactIndex]
  by_cases h : ∃ k, k < distances.length ∧ distances.getD k 0 ≤ earth_radius
  · simp [dif_pos h, h]
  · simp [dif_neg h, h]

lemma firstImpactIndex_some (distances : List ℝ) (i : ℕ)
    (hi : firstImpactIndex distances = some i) :
    i < distances.length ∧ distances.getD i 0 ≤ earth_radius ∧
      ∀ j, j < i → ¬ distances.getD j 0 ≤ earth_radius := by
  rw [firstImpactIndex] at hi
  by_cases h : ∃ k, k < distances.length ∧ distances.getD k 0 ≤ earth_radius
  · rw [dif_pos h] at hi
    obtain rfl : Nat.find h = i := Option.some_injective _ hi
    obtain ⟨hlt, hle⟩ := Nat.find_spec h
    refine ⟨hlt, hle, fun j hj hcon => ?_⟩
    exact Nat.find_min h hj ⟨lt_trans hj hlt, hcon⟩
  · rw [dif_neg h] at hi
    cases hi

/-- C4.  Against the fixed reference radius 6371 km, the analyzer reports
`will_impact = true` iff some sample's distance is at most 6371; in that case
`impact_index` is the smallest such sample index and `impact_time` /
`impact_position` are the time and position at that index; with no such
sample all three are null (`none`). -/
theorem c4_first_impact_detection (times : List ℝ) (positions : List (ℝ × ℝ × ℝ))
    (el : OrbitalElements) (h : positions ≠ []) :
    ((process_simulation_results times positions el).analysis.impact.will_impact =
        true ↔
      ∃ k, k < positions.length ∧ (positions.map norm3).getD k 0 ≤ earth_radius) ∧
    (∀ i,
      (process_simulation_results times positions el).analysis.impact.impact_index =
          some i →
        i < positions.length ∧ (positions.map norm3).getD i 0 ≤ earth_radius ∧
        (∀ j, j < i → ¬ (positions.map norm3).getD j 0 ≤ earth_radius) ∧
        (process_simulation_results times positions el).analysis.impact.impact_time =
          some (times.getD i 0) ∧
        (process_simulation_results
            times positions el).analysis.impact.impact_position =
          some (positions.getD i (0, 0, 0))) ∧
    ((¬ ∃ k, k < positions.length ∧ (positions.map norm3).getD k 0 ≤ earth_radius) →
      (process_simulation_results times positions el).analysis.impact.impact_time =
          none ∧
      (process_simulation_results
          times positions el).analysis.impact.impact_position = none ∧
      (process_simulation_results times positions el).analysis.impact.impact_index =
          none) := by
  have hlen : (positions.map norm3).length = positions.length := List.length_map _ _
  refine ⟨?_, fun i hi => ?_, fun hno => ?_⟩
  · simp only [process_simulation_results]
    rcases hopt : firstImpactIndex (positions.map norm3) with _ | i
    · rw [firstImpactIndex_none_iff, hlen] at hopt
      simp only [Option.isSome_none, Bool.false_eq_true, false_iff]
      exact hopt
    · have hspec := firstImpactIndex_some _ i hopt
      rw [hlen] at hspec
      simp only [Option.isSome_some, true_iff]
      exact ⟨i, hspec.1, hspec.2.1⟩
  · simp only [process_simulation_results] at hi
    have hi' : firstImpactIndex (positions.map norm3) = some i := hi
    have hspec := firstImpactIndex_some _ i hi'
    rw [hlen] at hspec
    refine ⟨hspec.1, hspec.2.1, hspec.2.2, ?_, ?_⟩ <;>
      simp [process_simulation_results, hi']
  · have hnone : firstImpactIndex (positions.map norm3) = none := by
      rw [firstImpactIndex_none_iff, hlen]
      exact hno
    refine ⟨?_, ?_, ?_⟩ <;> simp [process_simulation_results, hnone]

/-- Witness for C4 on the single non-impacting sample at distance 7000. -/
theorem c4_witness :
    ([((7000 : ℝ), (0 : ℝ), (0 : ℝ))] : List (ℝ × ℝ × ℝ)) ≠ [] ∧
      ((process_simulation_results [0] [((7000 : ℝ), 0, 0)]
            (OrbitalElements.make 7000 0.2 28.5 0 0 0 mu_earth)).analysis.impact.will_impact =
          true ↔
        ∃ k, k < ([((7000 : ℝ), (0 : ℝ), (0 : ℝ))] : List (ℝ × ℝ × ℝ)).length ∧
          (([((7000 : ℝ), (0 : ℝ), (0 : ℝ))] : List (ℝ × ℝ × ℝ)).map norm3).getD k 0 ≤
            earth_radius) :=
  ⟨by simp,
    (c4_first_impact_detection [0] [((7000 : ℝ), 0, 0)]
      (OrbitalElements.make 7000 0.2 28.5 0 0 0 mu_earth) (by simp)).1⟩

/-- C5.  The analyzer's periapsis and apoapsis records are read at the argmin
and argmax of the distance series over the entire sampled sequence — the
index ranges over all samples, including any after the first impact index —
with time, position, distance and altitude all taken at that same index;
consequently `periapsis.distance ≤ apoapsis.distance`. -/
theorem c5_extrema_over_entire_series (times : List ℝ)
    (positions : List (ℝ × ℝ × ℝ)) (el : OrbitalElements) (h : positions ≠ []) :
    ∃ im iM, im < positions.length ∧ iM < positions.length ∧
      (process_simulation_results times positions el).analysis.periapsis =
        ⟨times.getD im 0, positions.getD im (0, 0, 0),
          (positions.map norm3).getD im 0,
          (positions.map norm3).getD im 0 - earth_radius⟩ ∧
      (process_simulation_results times positions el).analysis.apoapsis =
        ⟨times.getD iM 0, positions.getD iM (0, 0, 0),
          (positions.map norm3).getD iM 0,
          (positions.map norm3).getD iM 0 - earth_radius⟩ ∧
      (∀ j, j < positions.length →
        (positions.map norm3).getD im 0 ≤ (positions.map norm3).getD j 0 ∧
        (positions.map norm3).getD j 0 ≤ (positions.map norm3).getD iM 0) ∧
      (process_simulation_results times positions el).analysis.periapsis.distance ≤
        (process_simulation_results times positions el).analysis.apoapsis.distance := by
  have hlen : (positions.map norm3).length = positions.length := List.length_map _ _
  have hne : positions.map norm3 ≠ [] := by
    simpa [← List.length_pos_iff_ne_nil, hlen] using
      List.length_pos_iff_ne_nil.mpr h
  obtain ⟨hminlt, hminle⟩ := argminIdx_spec (positions.map norm3) hne
  obtain ⟨hmaxlt, hmaxle⟩ := argmaxIdx_spec (positions.map norm3) hne
  rw [hlen] at hminlt hmaxlt
  refine ⟨argminIdx (positions.map norm3), argmaxIdx (positions.map norm3),
    hminlt, hmaxlt, ?_, ?_, fun j hj => ?_, ?_⟩
  · simp only [process_simulation_results]
    congr 1
    exact getD_map_lt (fun d => d - earth_radius) (positions.map norm3)
      (by rw [hlen]; exact hminlt) 0 0
  · simp only [process_simulation_results]
    congr 1
    exact getD_map_lt (fun d => d - earth_radius) (positions.map norm3)
      (by rw [hlen]; exact hmaxlt) 0 0
  · exact ⟨hminle j (by rwa [hlen]), hmaxle j (by rwa [hlen])⟩
  · simp only [process_simulation_results]
    exact hminle (argmaxIdx (positions.map norm3)) (by rwa [hlen])

/-- Witness for C5 on a concrete two-sample trajectory. -/
theorem c5_witness :
    ([((7000 : ℝ), (0 : ℝ), (0 : ℝ)), ((8000 : ℝ), 0, 0)] : List (ℝ × ℝ × ℝ)) ≠ [] ∧
      (process_simulation_results [0, 60]
          [((7000 : ℝ), 0, 0), ((8000 : ℝ), 0, 0)]
          (OrbitalElements.make 7000 0.2 28.5 0 0 0 mu_earth)).analysis.periapsis.distance ≤
        (process_simulation_results [0, 60]
          [((7000 : ℝ), 0, 0), ((8000 : ℝ), 0, 0)]
          (OrbitalElements.make 7000 0.2 28.5 0 0 0 mu_earth)).analysis.apoapsis.distance := by
  refine ⟨by simp, ?_⟩
  obtain ⟨im, iM, _, _, _, _, _, hle⟩ :=
    c5_extrema_over_entire_series [0, 60]
      [((7000 : ℝ), 0, 0), ((8000 : ℝ), 0, 0)]
      (OrbitalElements.make 7000 0.2 28.5 0 0 0 mu_earth) (by simp)
  exact hle

/-! ### The reported velocity series (C3) -/

lemma velocitySeries_length (times : List ℝ) (positions : List (ℝ × ℝ × ℝ))
    (h : 1 < positions.length) :
    (velocitySeries times positions).length = positions.length - 1 := by
  rw [velocitySeries, if_pos h]
  simp only [List.length_map, List.length_zip, List.length_tail]
  omega

lemma velocitySeries_getD (times : List ℝ) (positions : List (ℝ × ℝ × ℝ))
    (h : 1 < positions.length) (k : ℕ) (hk : k < positions.length - 1) :
    (velocitySeries times positions).getD k 0 =
      norm3 (sub3 (positions.getD (k + 1) (0, 0, 0)) (positions.getD k (0, 0, 0))) /
        (times.getD 1 0 - times.getD 0 0) := by
  rw [velocitySeries, if_pos h]
  have hk' : k < ((positions.zip positions.tail).map
      (fun pq => norm3 (sub3 pq.2 pq.1) /
        (times.getD 1 0 - times.getD 0 0))).length := by
    simp only [List.length_map, List.length_zip, List.length_tail]
    omega
  have hk1 : k + 1 < positions.length := by omega
  have hk0 : k < positions.length := by omega
  rw [List.getD_eq_getElem _ _ hk', List.getElem_map,
    List.getD_eq_getElem _ _ hk1, List.getD_eq_getElem _ _ hk0]
  simp only [List.getElem_zip, List.getElem_tail]

/-- C3 counterexample.  On the two-sample trajectory
`times = [0, 60]`, `positions = [(0,0,0), (60,0,0)]` the claim predicts a
velocity series of `n - 1 = 1` entry (`[1]`) and `avg_velocity = 1`, but the
code's `len(velocities) > 1` gate replaces the length-1 series with `[]` and
reports `avg_velocity = 0`. -/
theorem c3_counterexample :
    (process_simulation_results [0, 60] [((0 : ℝ), (0 : ℝ), (0 : ℝ)), ((60 : ℝ), 0, 0)]
        (OrbitalElements.make 7000 0.2 28.5 0 0 0 mu_earth)).trajectory.velocities = [] ∧
    (process_simulation_results [0, 60] [((0 : ℝ), (0 : ℝ), (0 : ℝ)), ((60 : ℝ), 0, 0)]
        (OrbitalElements.make 7000 0.2 28.5 0 0 0
          mu_earth)).trajectory.velocities.length ≠ 2 - 1 ∧
    (process_simulation_results [0, 60] [((0 : ℝ), (0 : ℝ), (0 : ℝ)), ((60 : ℝ), 0, 0)]
        (OrbitalElements.make 7000 0.2 28.5 0 0 0 mu_earth)).analysis.avg_velocity = 0 := by
  have hlen :
      (velocitySeries [0, 60] [((0 : ℝ), (0 : ℝ), (0 : ℝ)), ((60 : ℝ), 0, 0)]).length = 1 := by
    rw [velocitySeries_length _ _ (by simp)]
    rfl
  have hnv : ¬ 1 <
      (velocitySeries [0, 60] [((0 : ℝ), (0 : ℝ), (0 : ℝ)), ((60 : ℝ), 0, 0)]).length := by
    rw [hlen]
    omega
  refine ⟨?_, ?_, ?_⟩ <;> simp only [process_simulation_results, if_neg hnv] <;> simp

/-- C3 (amended).  For a trajectory of `n ≥ 3` samples the analyzer reports a
velocity series of exactly `n - 1` entries with
`velocity[k] = |position[k+1] - position[k]| / Δt` (where
`Δt = times[1] - times[0]`) and `avg_velocity` equal to their mean; a
trajectory with `n = 1` or `n = 2` samples yields an empty reported velocity
series and `avg_velocity = 0` (the `n = 2` case is also collapsed to empty by
the `len(velocities) > 1` gate). -/
theorem c3_velocity_series_and_average (times : List ℝ)
    (positions : List (ℝ × ℝ × ℝ)) (el : OrbitalElements) :
    (3 ≤ positions.length →
      (process_simulation_results times positions el).trajectory.velocities.length =
        positions.length - 1 ∧
      (∀ k, k < positions.length - 1 →
        (process_simulation_results times positions el).trajectory.velocities.getD k 0 =
          norm3 (sub3 (positions.getD (k + 1) (0, 0, 0))
              (positions.getD k (0, 0, 0))) /
            (times.getD 1 0 - times.getD 0 0)) ∧
      (process_simulation_results times positions el).analysis.avg_velocity =
        (process_simulation_results times positions el).trajectory.velocities.sum /
          ((process_simulation_results
              times positions el).trajectory.velocities.length : ℝ)) ∧
    (positions.length = 1 ∨ positions.length = 2 →
      (process_simulation_results times positions el).trajectory.velocities = [] ∧
      (process_simulation_results times positions el).analysis.avg_velocity = 0) := by
  constructor
  · intro h3
    have h2 : 1 < positions.length := by omega
    have hlen := velocitySeries_length times positions h2
    have hv : 1 < (velocitySeries times positions).length := by omega
    refine ⟨?_, fun k hk => ?_, ?_⟩
    · simp only [process_simulation_results, if_pos hv]
      exact hlen
    · simp only [process_simulation_results, if_pos hv]
      exact velocitySeries_getD times positions h2 k hk
    · simp only [process_simulation_results, if_pos hv]
  · intro hsmall
    have hvlen : (velocitySeries times positions).length = 1 := by
      rcases hsmall with h1 | h2
      · rw [velocitySeries, if_neg (by omega)]
        rfl
      · rw [velocitySeries_length times positions (by omega), h2]
    have hnv : ¬ 1 < (velocitySeries times positions).length := by omega
    constructor <;> simp only [process_simulation_results, if_neg hnv]

/-- Witness for C3's amended theorem on a concrete three-sample trajectory. -/
theorem c3_witness :
    (3 : ℕ) ≤ ([((0 : ℝ), (0 : ℝ), (0 : ℝ)), ((60 : ℝ), 0, 0),
        ((180 : ℝ), 0, 0)] : List (ℝ × ℝ × ℝ)).length ∧
    (process_simulation_results [0, 60, 120]
        [((0 : ℝ), (0 : ℝ), (0 : ℝ)), ((60 : ℝ), 0, 0), ((180 : ℝ), 0, 0)]
        (OrbitalElements.make 7000 0.2 28.5 0 0 0
          mu_earth)).trajectory.velocities.length =
      ([((0 : ℝ), (0 : ℝ), (0 : ℝ)), ((60 : ℝ), 0, 0),
        ((180 : ℝ), 0, 0)] : List (ℝ × ℝ × ℝ)).length - 1 :=
  ⟨by simp,
    ((c3_velocity_series_and_average [0, 60, 120]
        [((0 : ℝ), (0 : ℝ), (0 : ℝ)), ((60 : ℝ), 0, 0), ((180 : ℝ), 0, 0)]
        (OrbitalElements.make 7000 0.2 28.5 0 0 0 mu_earth)).1 (by simp)).1⟩

/-! ### The rotation sequence is an isometry (C9) -/

lemma norm3_rotated (xo yo ω i Ω : ℝ) :
    norm3 ((xo * Real.cos ω - yo * Real.sin ω) * Real.cos Ω -
        ((xo * Real.sin ω + yo * Real.cos ω) * Real.cos i -
          0 * Real.sin i) * Real.sin Ω,
      (xo * Real.cos ω - yo * Real.sin ω) * Real.sin Ω +
        ((xo * Real.sin ω + yo * Real.cos ω) * Real.cos i -
          0 * Real.sin i) * Real.cos Ω,
      (xo * Real.sin ω + yo * Real.cos ω) * Real.sin i + 0 * Real.cos i) =
    Real.sqrt (xo ^ 2 + yo ^ 2) := by
  rw [norm3]
  congr 1
  have h1 := Real.sin_sq_add_cos_sq ω
  have h2 := Real.sin_sq_add_cos_sq i
  have h3 := Real.sin_sq_add_cos_sq Ω
  linear_combination
    ((xo * Real.cos ω - yo * Real.sin ω) ^ 2 +
        ((xo * Real.sin ω + yo * Real.cos ω) * Real.cos i - 0 * Real.sin i) ^ 2) * h3 +
      (xo * Real.sin ω + yo * Real.cos ω) ^ 2 * h2 + (xo ^ 2 + yo ^ 2) * h1

lemma norm3_orbital_to_cartesian (el : OrbitalElements) (t : ℝ)
    (ha : 0 < el.a) (he0 : 0 ≤ el.e) (he1 : el.e < 1) :
    norm3 (orbital_to_cartesian el t) =
      el.a * (1 - el.e ^ 2) /
        (1 + el.e * Real.cos (mean_to_true_anomaly (el.M0 + el.n * t) el.e)) := by
  have hcos := Real.neg_one_le_cos (mean_to_true_anomaly (el.M0 + el.n * t) el.e)
  have hden :
      0 < 1 + el.e * Real.cos (mean_to_true_anomaly (el.M0 + el.n * t) el.e) := by
    nlinarith
  have hrpos :
      0 ≤ el.a * (1 - el.e ^ 2) /
        (1 + el.e * Real.cos (mean_to_true_anomaly (el.M0 + el.n * t) el.e)) := by
    apply div_nonneg _ hden.le
    have he2 : el.e ^ 2 < 1 := by nlinarith
    nlinarith
  simp only [orbital_to_cartesian]
  rw [norm3_rotated]
  have hsq :
      (el.a * (1 - el.e ^ 2) /
            (1 + el.e * Real.cos (mean_to_true_anomaly (el.M0 + el.n * t) el.e)) *
          Real.cos (mean_to_true_anomaly (el.M0 + el.n * t) el.e)) ^ 2 +
        (el.a * (1 - el.e ^ 2) /
            (1 + el.e * Real.cos (mean_to_true_anomaly (el.M0 + el.n * t) el.e)) *
          Real.sin (mean_to_true_anomaly (el.M0 + el.n * t) el.e)) ^ 2 =
      (el.a * (1 - el.e ^ 2) /
          (1 + el.e * Real.cos (mean_to_true_anomaly (el.M0 + el.n * t) el.e))) ^ 2 := by
    linear_combination
      (el.a * (1 - el.e ^ 2) /
          (1 + el.e * Real.cos (mean_to_true_anomaly (el.M0 + el.n * t) el.e))) ^ 2 *
        Real.sin_sq_add_cos_sq (mean_to_true_anomaly (el.M0 + el.n * t) el.e)
  rw [hsq, Real.sqrt_sq hrpos]

/-- C9.  For valid elements (`a > 0`, `0 ≤ e < 1`) the Euclidean norm of the
inertial position equals the orbital radius `r = a(1-e²)/(1+e·cos ν)`
computed before the three rotations (each 2D rotation is an isometry), so
the distance series — and everything the analyzer derives from it — does not
depend on `i`, `omega`, `Omega`. -/
theorem c9_position_norm_equals_orbital_radius (el : OrbitalElements) (t : ℝ)
    (ha : 0 < el.a) (he0 : 0 ≤ el.e) (he1 : el.e < 1) :
    norm3 (orbital_to_cartesian el t) =
      el.a * (1 - el.e ^ 2) /
        (1 + el.e * Real.cos (mean_to_true_anomaly (el.M0 + el.n * t) el.e)) ∧
    ∀ i2 ω2 Ω2 t2 : ℝ,
      norm3 (orbital_to_cartesian { el with i := i2, omega := ω2, Omega := Ω2 } t2) =
        norm3 (orbital_to_cartesian el t2) := by
  refine ⟨norm3_orbital_to_cartesian el t ha he0 he1, fun i2 ω2 Ω2 t2 => ?_⟩
  rw [norm3_orbital_to_cartesian el t2 ha he0 he1,
    norm3_orbital_to_cartesian { el with i := i2, omega := ω2, Omega := Ω2 } t2
      ha he0 he1]

/-- Witness for C9 with the spec's example elements at `t = 0`. -/
theorem c9_witness :
    0 < (OrbitalElements.make 7000 0.2 28.5 0 0 0 mu_earth).a ∧
    0 ≤ (OrbitalElements.make 7000 0.2 28.5 0 0 0 mu_earth).e ∧
    (OrbitalElements.make 7000 0.2 28.5 0 0 0 mu_earth).e < 1 ∧
    norm3 (orbital_to_cartesian (OrbitalElements.make 7000 0.2 28.5 0 0 0 mu_earth) 0) =
      (OrbitalElements.make 7000 0.2 28.5 0 0 0 mu_earth).a *
          (1 - (OrbitalElements.make 7000 0.2 28.5 0 0 0 mu_earth).e ^ 2) /
        (1 + (OrbitalElements.make 7000 0.2 28.5 0 0 0 mu_earth).e *
          Real.cos (mean_to_true_anomaly
            ((OrbitalElements.make 7000 0.2 28.5 0 0 0 mu_earth).M0 +
              (OrbitalElements.make 7000 0.2 28.5 0 0 0 mu_earth).n * 0)
            (OrbitalElements.make 7000 0.2 28.5 0 0 0 mu_earth).e)) :=
  ⟨by norm_num [OrbitalElements.make], by norm_num [OrbitalElements.make],
    by norm_num [OrbitalElements.make],
    (c9_position_norm_equals_orbital_radius
      (OrbitalElements.make 7000 0.2 28.5 0 0 0 mu_earth) 0
      (by norm_num [OrbitalElements.make]) (by norm_num [OrbitalElements.make])
      (by norm_num [OrbitalElements.make])).1⟩

/-! ### Evaluation at `t = 0` (helpers shared by C6 and C10) -/

lemma keplerStep_zero_M (e : ℝ) : keplerStep 0 e 0 = 0 := by
  simp [keplerStep]

lemma solve_kepler_zero_M (e : ℝ) : solve_kepler_equation 0 e = 0 := by
  rw [solve_kepler_equation, show (50 : ℕ) = 49 + 1 from rfl, keplerLoop,
    keplerStep_zero_M,
    if_pos (by rw [sub_self, abs_zero, kepler_tolerance]; norm_num)]

lemma atan2_zero_nonneg (x : ℝ) (hx : 0 ≤ x) : atan2 0 x = 0 := by
  have hmk : (⟨x, 0⟩ : ℂ) = (x : ℂ) := by
    apply Complex.ext <;> simp
  rw [atan2, hmk]
  exact Complex.arg_ofReal_of_nonneg hx

lemma mean_to_true_anomaly_zero (e : ℝ) : mean_to_true_anomaly 0 e = 0 := by
  rw [mean_to_true_anomaly, solve_kepler_zero_M]
  simp only [zero_div, Real.sin_zero, Real.cos_zero, mul_zero, mul_one]
  rw [atan2_zero_nonneg _ (Real.sqrt_nonneg _)]
  ring

lemma norm3_orbital_to_cartesian_zero (el : OrbitalElements)
    (ha : 0 < el.a) (he0 : 0 ≤ el.e) (he1 : el.e < 1) (hM0 : el.M0 = 0) :
    norm3 (orbital_to_cartesian el 0) = el.a * (1 - el.e ^ 2) / (1 + el.e) := by
  have h := norm3_orbital_to_cartesian el 0 ha he0 he1
  rw [mul_zero, add_zero, hM0] at h
  rw [h, mean_to_true_anomaly_zero, Real.cos_zero, mul_one]

/-- C6.  For elements `a = 7000`, `e = 0.2`, `i = 28.5°`,
`ω = Ω = M0 = 0`, `mu = 3.986004418e5`, `simulate(7200, 60)` produces exactly
120 samples on the half-open grid `t = 0, 60, …, 7140` (every sampled time is
strictly below 7200, so the `t = 7200` sample is excluded), and the first
sample's position has Euclidean norm `a(1-e) = 5600` km. -/
theorem c6_demo_grid_and_periapsis_start :
    arange 7200 60 = (List.range 120).map (fun k : ℕ => (k : ℝ) * 60) ∧
    simulate (OrbitalElements.make 7000 0.2 28.5 0 0 0 mu_earth) 7200 60 =
      Except.ok (arange 7200 60,
        (arange 7200 60).map
          (orbital_to_cartesian (OrbitalElements.make 7000 0.2 28.5 0 0 0 mu_earth))) ∧
    (arange 7200 60).length = 120 ∧
    ((arange 7200 60).map
      (orbital_to_cartesian
        (OrbitalElements.make 7000 0.2 28.5 0 0 0 mu_earth))).length = 120 ∧
    (arange 7200 60).getD 119 0 = 7140 ∧
    (∀ t ∈ arange 7200 60, t < 7200) ∧
    norm3 (((arange 7200 60).map
        (orbital_to_cartesian
          (OrbitalElements.make 7000 0.2 28.5 0 0 0 mu_earth))).getD 0 (0, 0, 0)) =
      5600 ∧
    (5600 : ℝ) = 7000 * (1 - 0.2) := by
  have h120 : ⌈(7200 : ℝ) / 60⌉₊ = 120 := by
    rw [show (7200 : ℝ) / 60 = ((120 : ℕ) : ℝ) by norm_num]
    exact Nat.ceil_natCast 120
  have hgrid : arange 7200 60 =
      (List.range 120).map (fun k : ℕ => (k : ℝ) * 60) := by
    rw [arange, h120]
  have hlen : (arange 7200 60).length = 120 := by
    rw [hgrid]; simp
  have ht0 : (arange 7200 60).getD 0 0 = 0 := by
    rw [hgrid, List.getD_eq_getElem _ _ (by simp), List.getElem_map,
      List.getElem_range]
    norm_num
  refine ⟨hgrid, by rw [simulate, if_neg (by norm_num)], hlen, by simp [hlen],
    ?_, ?_, ?_, by norm_num⟩
  · rw [hgrid, List.getD_eq_getElem _ _ (by simp), List.getElem_map,
      List.getElem_range]
    norm_num
  · intro t ht
    rw [hgrid, List.mem_map] at ht
    obtain ⟨k, hk, rfl⟩ := ht
    rw [List.mem_range] at hk
    have hk' : (k : ℝ) ≤ 119 := by exact_mod_cast Nat.lt_succ_iff.mp hk
    nlinarith
  · rw [getD_map_lt _ _ (by rw [hlen]; norm_num) 0 (0, 0, 0), ht0,
      norm3_orbital_to_cartesian_zero _ (by norm_num [OrbitalElements.make])
        (by norm_num [OrbitalElements.make]) (by norm_num [OrbitalElements.make])
        (by norm_num [OrbitalElements.make, radians])]
    norm_num [OrbitalElements.make]

/-- C10.  `get_orbital_info` sets `will_impact_earth` iff the analytic
perigee altitude `a(1-e) - 6371` is strictly negative, from the elements
alone; the analyzer's sampled impact test instead uses `distance ≤ 6371`
(non-strict), so one simulation result can carry two disagreeing impact
flags: for `a = 6371`, `e = 0` (perigee altitude exactly 0) the orbital info
says no impact while the analyzer flags an impact on the sampled circular
trajectory of radius 6371. -/
theorem c10_disagreeing_impact_flags :
    (∀ el : OrbitalElements,
      (getOrbitalInfo el).will_impact_earth ↔ el.a * (1 - el.e) - 6371 < 0) ∧
    (getOrbitalInfo (OrbitalElements.make 6371 0 0 0 0 0 mu_earth)).will_impact_earth =
      False ∧
    simulate (OrbitalElements.make 6371 0 0 0 0 0 mu_earth) 120 60 =
      Except.ok (arange 120 60,
        (arange 120 60).map
          (orbital_to_cartesian (OrbitalElements.make 6371 0 0 0 0 0 mu_earth))) ∧
    (process_simulation_results (arange 120 60)
        ((arange 120 60).map
          (orbital_to_cartesian (OrbitalElements.make 6371 0 0 0 0 0 mu_earth)))
        (OrbitalElements.make 6371 0 0 0 0 0 mu_earth)).analysis.impact.will_impact =
      true := by
  have h2 : ⌈(120 : ℝ) / 60⌉₊ = 2 := by
    rw [show (120 : ℝ) / 60 = ((2 : ℕ) : ℝ) by norm_num]
    exact Nat.ceil_natCast 2
  have hlen : (arange 120 60).length = 2 := by
    rw [arange, h2]; simp
  have ht0 : (arange 120 60).getD 0 0 = 0 := by
    rw [arange, h2, List.getD_eq_getElem _ _ (by simp), List.getElem_map,
      List.getElem_range]
    norm_num
  have hplen : ((arange 120 60).map
      (orbital_to_cartesian (OrbitalElements.make 6371 0 0 0 0 0 mu_earth))).length =
      2 := by simp [hlen]
  have hd0 : (((arange 120 60).map
      (orbital_to_cartesian (OrbitalElements.make 6371 0 0 0 0 0 mu_earth))).map
        norm3).getD 0 0 = 6371 := by
    rw [getD_map_lt _ _ (by rw [hplen]; norm_num) (0, 0, 0) 0,
      getD_map_lt _ _ (by rw [hlen]; norm_num) 0 (0, 0, 0), ht0,
      norm3_orbital_to_cartesian_zero _ (by norm_num [OrbitalElements.make])
        (by norm_num [OrbitalElements.make]) (by norm_num [OrbitalElements.make])
        (by norm_num [OrbitalElements.make, radians])]
    norm_num [OrbitalElements.make]
  have hex : ∃ k, k < (((arange 120 60).map
      (orbital_to_cartesian (OrbitalElements.make 6371 0 0 0 0 0 mu_earth))).map
        norm3).length ∧
      (((arange 120 60).map
        (orbital_to_cartesian (OrbitalElements.make 6371 0 0 0 0 0 mu_earth))).map
          norm3).getD k 0 ≤ earth_radius := by
    refine ⟨0, by simp [hlen], ?_⟩
    rw [hd0, earth_radius]
  refine ⟨fun el => by simp [getOrbitalInfo, earth_radius], ?_,
    by rw [simulate, if_neg (by norm_num)], ?_⟩
  · apply eq_false
    simp only [getOrbitalInfo, OrbitalElements.make, earth_radius]
    norm_num
  · simp only [process_simulation_results]
    rw [firstImpactIndex, dif_pos hex]
    rfl

end MeteorMadness

end
